import Mathlib

/-!
Verification development for the `agenda` Go package (snapshot-test
orchestration engine).  The definitions below are a shallow embedding of
`agenda.go` (functions `Run` and `processFile`, the option machinery) and
`agenda_util.go` (`SerializableError`).

Modelling conventions:
* byte slices are `List Nat`; Go `bytes.Equal` is list equality (Go treats
  nil and empty slices as equal, and both are modelled by `[]`);
* Go `error` values are `Option String` carrying the rendered message;
* the filesystem visible to one orchestration call is an association list
  from full path to `FileData`; `FileData.unreadable` models a file whose
  `stat` succeeds but whose read fails with the recorded message;
* `testing.T` effects are modelled by an explicit state `TState`:
  `t.Errorf` appends to `failures`, `t.Fatalf` sets `fatal` (which, as in
  Go's `testing` package, terminates the whole test function, so nothing
  after it runs), and the observable I/O steps are recorded in `trace`;
* the external diff library (`difflib`) renders in memory and cannot fail,
  so its model `getUnifiedDiffString` always returns `Except.ok`; the
  error branch of the source is nevertheless kept in `mismatchMessage`;
* `ioutil.ReadDir` sorts directory entries by name; this is modelled by
  an explicit insertion sort on entry names (byte-wise order, as in Go).
-/

namespace Agenda

/-- Byte-wise (code-point-wise) lexicographic order on character lists,
modelling Go string comparison used by `ioutil.ReadDir` sorting. -/
def lexLe : List Char → List Char → Bool
  | [], _ => true
  | _ :: _, [] => false
  | a :: as, b :: bs =>
    if a.toNat < b.toNat then true
    else if b.toNat < a.toNat then false
    else lexLe as bs

/-- Lexicographic order on strings (model of Go `<=` on strings). -/
def strLe (a b : String) : Bool := lexLe a.data b.data

/-- Model of Go `strings.HasSuffix` on character lists. -/
def isSuffixOfChars (a b : List Char) : Bool :=
  decide (a.length ≤ b.length) && (List.drop (b.length - a.length) b == a)

/-- Model of Go `strings.HasSuffix s suf`. -/
def hasSuffixStr (s suf : String) : Bool := isSuffixOfChars suf.data s.data

/-- Contents of one file in the modelled filesystem. -/
inductive FileData where
  | readable (content : List Nat)
  | unreadable (errMsg : String)
deriving DecidableEq

/-- One direct entry of the test directory (`os.FileInfo` as used by `Run`). -/
structure Entry where
  name : String
  isDir : Bool
deriving DecidableEq

/-- The filesystem and fault state an orchestration call runs against. -/
structure World where
  dirExists : Bool
  /-- when `some msg`, `os.MkdirAll` fails with that message. -/
  mkdirErr : Option String
  /-- direct entries of the test directory (meaningful when `dirExists`). -/
  entries : List Entry
  /-- full path to file data, for every file the run may touch. -/
  files : List (String × FileData)

/-- Observable I/O steps, in execution order. -/
inductive Ev where
  | logPath (p : String)
  | readF (p : String)
  | statF (p : String)
  | callT (p : String)
  | cmp (p : String)
  | writeF (p : String) (content : List Nat)
  | mkdirE (dir : String)
deriving DecidableEq

/-- State of the `testing.T` collaborator plus the filesystem. -/
structure TState where
  files : List (String × FileData)
  failures : List String
  fatal : Option String
  trace : List Ev
deriving DecidableEq

/-- Association-list lookup for the file map. -/
def lookupFile : List (String × FileData) → String → Option FileData
  | [], _ => none
  | (q, d) :: rest, p => if q = p then some d else lookupFile rest p

/-- Model of `ioutil.ReadFile`: the error message mirrors Go's `os.Open`
failure for a missing file, or the recorded message for an unreadable one. -/
def readFile (fs : List (String × FileData)) (p : String) : Except String (List Nat) :=
  match lookupFile fs p with
  | none => Except.error ("open " ++ p ++ ": no such file or directory")
  | some (FileData.readable c) => Except.ok c
  | some (FileData.unreadable e) => Except.error e

/-- Model of `os.Stat` ++ `os.IsNotExist`: the path exists in the map. -/
def statFileExists (fs : List (String × FileData)) (p : String) : Bool :=
  (lookupFile fs p).isSome

/-- Model of `ioutil.WriteFile` (always succeeds): overwrite or create. -/
def writeFile : List (String × FileData) → String → List Nat → List (String × FileData)
  | [], p, c => [(p, FileData.readable c)]
  | (q, d) :: rest, p, c =>
    if q = p then (q, FileData.readable c) :: rest
    else (q, d) :: writeFile rest p c

/-- The test callback: `func(path string, data []byte) ([]byte, error)`.
Being a Lean function it is deterministic, matching the contract the
golden-file model assumes of callbacks. -/
def TestFn : Type := String → List Nat → List Nat × Option String

/-- The string-serializer callback: `func(data []byte) (string, error)`. -/
def SerFn : Type := List Nat → Except String String

/-- Raw bytes to string, model of Go `string(data)` (never fails). -/
def bytesToString (data : List Nat) : String :=
  String.mk (data.map (fun b => Char.ofNat b))

/-- Model of `serializeUTF8Bytes` from the source: `string(data), nil`. -/
def serializeUTF8Bytes : SerFn := fun data => Except.ok (bytesToString data)

/-- One hex digit. -/
def hexDigit (n : Nat) : Char :=
  if n < 10 then Char.ofNat (48 + n) else Char.ofNat (87 + n)

/-- Two-digit hex rendering of one byte. -/
def byteHex (b : Nat) : String :=
  String.mk [hexDigit (b / 16 % 16), hexDigit (b % 16)]

/-- Simplified model of the external `hex.Dump` renderer (the exact text of
the external `encoding/hex` library is irrelevant to every claim). -/
def hexDump (data : List Nat) : String :=
  String.intercalate " " (data.map byteHex)

/-- Model of `serializeBinaryData` from the source: `hex.Dump(data), nil`. -/
def serializeBinaryData : SerFn := fun data => Except.ok (hexDump data)

/-- The resolved option set (`optionSet` in the source).  The Go field
`serializeFunc` is a nilable function value, modelled as `Option SerFn`. -/
structure OptionSet where
  fileSuffix : String
  resultSuffix : String
  initMode : Bool
  serializeFunc : Option SerFn

/-- Model of the `FileSuffix` option constructor. -/
def FileSuffix (s : String) : OptionSet → OptionSet :=
  fun o => { o with fileSuffix := s }

/-- Model of the `ResultSuffix` option constructor. -/
def ResultSuffix (s : String) : OptionSet → OptionSet :=
  fun o => { o with resultSuffix := s }

/-- Model of the `InitMode` option constructor. -/
def InitMode (enabled : Bool) : OptionSet → OptionSet :=
  fun o => { o with initMode := enabled }

/-- Model of the `Serializer` option constructor (a Go caller may pass a
nil function value, hence the `Option`). -/
def Serializer (f : Option SerFn) : OptionSet → OptionSet :=
  fun o => { o with serializeFunc := f }

/-- Model of the `BinarySerializer` shortcut option. -/
def BinarySerializer : OptionSet → OptionSet :=
  Serializer (some serializeBinaryData)

/-- Model of the `UTF8Serializer` shortcut option. -/
def UTF8Serializer : OptionSet → OptionSet :=
  Serializer (some serializeUTF8Bytes)

/-- The defaults built at the top of `Run`; `ambientInit` models the
ambient run-mode signal `flag.Arg(0) == "init"`. -/
def defaultOptions (ambientInit : Bool) : OptionSet :=
  { fileSuffix := ".json"
    resultSuffix := ".result"
    initMode := ambientInit
    serializeFunc := some serializeUTF8Bytes }

/-- Applying the caller-supplied options in order over the defaults. -/
def resolveOptions (ambientInit : Bool) (options : List (OptionSet → OptionSet)) : OptionSet :=
  options.foldl (fun o f => f o) (defaultOptions ambientInit)

/-- Model of the external difflib `UnifiedDiff` parameter structure. -/
structure UnifiedDiff where
  A : List String
  B : List String
  FromFile : String
  ToFile : String
  Context : Nat
  Colored : Bool

/-- Model of the external `difflib.SplitLines`. -/
def splitLines (s : String) : List String := s.splitOn "\n"

/-- Deterministic in-memory rendering standing for the text the external
diff library produces; its exact content is irrelevant to every claim,
only which `UnifiedDiff` parameters it is applied to. -/
def renderDiff (d : UnifiedDiff) : String :=
  "--- " ++ d.FromFile ++ "\n+++ " ++ d.ToFile ++ "\n@@ context " ++
    toString d.Context ++ " @@\n" ++
    String.intercalate "\n" (d.A.map (fun l => "-" ++ l)) ++ "\n" ++
    String.intercalate "\n" (d.B.map (fun l => "+" ++ l)) ++ "\n"

/-- Model of `difflib.GetUnifiedDiffString`: it writes into an in-memory
buffer, whose writes cannot fail, so it always returns `ok`. -/
def getUnifiedDiffString (d : UnifiedDiff) : Except String String :=
  Except.ok (renderDiff d)

/-- The fixed first sentence of every mismatch failure message
(`mainErrText` in the source). -/
def mainErrText (resultPath : String) : String :=
  "Reference " ++ resultPath ++ " contents don\x27t match the generated output."

/-- The failure message produced by the mismatch branch of `processFile`
(source lines 296-333): serializer absent, either decode failing, diff
generation failing, or the rendered diff. -/
def mismatchMessage (opt : OptionSet) (resultPath : String)
    (referenceOutput output : List Nat) : String :=
  match opt.serializeFunc with
  | none =>
    mainErrText resultPath ++ " Also, no data serialization function provided; can\x27t render a diff."
  | some f =>
    match f referenceOutput with
    | Except.error refErr =>
      mainErrText resultPath ++ " Also, serializing reference output data failed: " ++ refErr
    | Except.ok refStr =>
      match f output with
      | Except.error outErr =>
        mainErrText resultPath ++ " Also, serializing generated output data failed: " ++ outErr
      | Except.ok outStr =>
        match getUnifiedDiffString
            { A := splitLines refStr
              B := splitLines outStr
              FromFile := resultPath ++ " (reference)"
              ToFile := resultPath ++ " (generated)"
              Context := 3
              Colored := true } with
        | Except.error e =>
          mainErrText resultPath ++ " Also, generating the diff failed: " ++ e
        | Except.ok text =>
          mainErrText resultPath ++ " Here\x27s the diff:\n\n" ++ text ++ "\n"

/-- The `t.Errorf` message for a callback error (source line 287). -/
def cbFailures : Option String → List String
  | some e => ["Error during test() call: " ++ e]
  | none => []

/-- Reference-reading block of `processFile` (source lines 270-281), run
only in regular mode: stat the result path (absence fatal with the init
hint), then read it (read failure fatal). -/
def readReference (st : TState) (resultPath : String) : Except TState (TState × List Nat) :=
  let st1 : TState := { st with trace := st.trace ++ [Ev.statF resultPath] }
  if statFileExists st1.files resultPath = false then
    Except.error { st1 with fatal := some ("File \x27" ++ resultPath ++
      "\x27 doesn\x27t exist (try initializing snapshots with \x27go test -args init\x27)") }
  else
    let st2 : TState := { st1 with trace := st1.trace ++ [Ev.readF resultPath] }
    match readFile st2.files resultPath with
    | Except.error e =>
      Except.error { st2 with fatal := some ("Can\x27t read the \x27" ++ resultPath ++ "\x27 file: " ++ e) }
    | Except.ok c => Except.ok (st2, c)

/-- Comparison block of `processFile` in regular mode (source lines 292-334). -/
def reconcileRegular (opt : OptionSet) (st : TState) (resultPath : String)
    (referenceOutput output : List Nat) : TState :=
  let st1 : TState := { st with trace := st.trace ++ [Ev.cmp resultPath] }
  if output = referenceOutput then st1
  else { st1 with failures := st1.failures ++ [mismatchMessage opt resultPath referenceOutput output] }

/-- Init-mode write block of `processFile` (source lines 335-343); the
modelled `ioutil.WriteFile` always succeeds. -/
def writeReference (st : TState) (resultPath : String) (output : List Nat) : TState :=
  { st with
    trace := st.trace ++ [Ev.writeF resultPath output]
    files := writeFile st.files resultPath output }

/-- Shallow embedding of `processFile` (source lines 257-344): log the
path, read the fixture (read failure fatal); in regular mode stat and read
the reference file; invoke the callback, reporting a non-nil callback
error via `t.Errorf`; then compare (regular mode) or write (init mode). -/
def processFile (opt : OptionSet) (test : TestFn) (st : TState) (path : String) : TState :=
  let resultPath := path ++ opt.resultSuffix
  let st1 : TState := { st with trace := st.trace ++ [Ev.logPath path, Ev.readF path] }
  match readFile st1.files path with
  | Except.error e => { st1 with fatal := some ("Can\x27t read the file: " ++ e) }
  | Except.ok input =>
    match (if opt.initMode then Except.ok (st1, ([] : List Nat))
           else readReference st1 resultPath) with
    | Except.error stF => stF
    | Except.ok (st2, referenceOutput) =>
      let out := test path input
      let st3 : TState := { st2 with
        trace := st2.trace ++ [Ev.callT path]
        failures := st2.failures ++ cbFailures out.2 }
      if opt.initMode = false then
        reconcileRegular opt st3 resultPath referenceOutput out.1
      else
        writeReference st3 resultPath out.1

/-- Model of `filepath.Join dir name` for a clean relative directory. -/
def joinPath (dir name : String) : String := dir ++ "/" ++ name

/-- Insert an entry into a name-sorted entry list. -/
def insertEntry (e : Entry) : List Entry → List Entry
  | [] => [e]
  | x :: xs => if strLe e.name x.name then e :: x :: xs else x :: insertEntry e xs

/-- Sorting directory entries by name; models the sorted order in which
`ioutil.ReadDir` returns entries. -/
def sortByName : List Entry → List Entry
  | [] => []
  | e :: es => insertEntry e (sortByName es)

/-- The fixture filter of the `Run` loop: `!f.IsDir() &&
strings.HasSuffix(f.Name(), opt.fileSuffix)`. -/
def matchesFixture (opt : OptionSet) (e : Entry) : Bool :=
  !e.isDir && hasSuffixStr e.name opt.fileSuffix

/-- The fixture loop of `Run` (source lines 243-249).  A `t.Fatalf`
raised inside `processFile` terminates the whole test function, so no
later entry is visited. -/
def runLoop (opt : OptionSet) (test : TestFn) (dir : String) :
    List Entry → TState → Bool → TState × Bool
  | [], st, found => (st, found)
  | e :: es, st, found =>
    if matchesFixture opt e then
      let st1 := processFile opt test st (joinPath dir e.name)
      if st1.fatal.isSome then (st1, true)
      else runLoop opt test dir es st1 true
    else runLoop opt test dir es st found

/-- Directory scan and loop of `Run` after the existence check: sort the
entries, process the matching ones, and apply the empty-set policy (fatal
in regular mode only); a fatal inside the loop skips that check, as
`t.Fatalf` has already terminated the test function. -/
def runDir (opt : OptionSet) (test : TestFn) (dir : String)
    (files0 : List (String × FileData)) (entries : List Entry) (tr0 : List Ev) : TState :=
  let p := runLoop opt test dir (sortByName entries)
    { files := files0, failures := [], fatal := none, trace := tr0 } false
  if p.1.fatal.isSome then p.1
  else if !p.2 && !opt.initMode then
    { p.1 with fatal := some ("No files ending with \x27" ++ opt.fileSuffix ++
      "\x27 found in \x27" ++ dir ++ "\x27 directory") }
  else p.1

/-- Shallow embedding of `Run` after option resolution (source lines
218-254): directory existence check with mode-dependent handling, then
the fixture scan. -/
def runWithOptions (opt : OptionSet) (dir : String) (test : TestFn) (w : World) : TState :=
  if w.dirExists then
    runDir opt test dir w.files w.entries []
  else if opt.initMode then
    match w.mkdirErr with
    | some e =>
      { files := w.files, failures := [], fatal := some ("Can\x27t create the snapshot directory: " ++ e)
        trace := [] }
    | none =>
      runDir opt test dir w.files [] [Ev.mkdirE dir]
  else
    { files := w.files, failures := []
      fatal := some ("Snapshot directory \x27" ++ dir ++
        "\x27 doesn\x27t exist (try initializing snapshots with \x27go test -args init\x27)")
      trace := [] }

/-- Shallow embedding of `Run` (source lines 202-254): resolve the options
from the defaults (the ambient mode signal) and the caller's option list,
then orchestrate the directory. -/
def run (ambientInit : Bool) (options : List (OptionSet → OptionSet))
    (dir : String) (test : TestFn) (w : World) : TState :=
  runWithOptions (resolveOptions ambientInit options) dir test w

/-- Shallow embedding of `SerializableError` from `agenda_util.go`: a Go
`error` is `Option String` (its message), the `interface\x7b\x7d` result is
`Option String` (`none` models the nil interface). -/
def SerializableError (err : Option String) : Option String :=
  match err with
  | some e => some e
  | none => none

/-- Model of `json.Marshal` restricted to the values `SerializableError`
returns: the nil interface marshals to `null`, a string to its quoted,
escaped form. -/
def jsonEscapeChar (c : Char) : String :=
  if c = Char.ofNat 34 then "\\\""
  else if c = Char.ofNat 92 then "\\\\"
  else if c.toNat < 32 then "\\u00" ++ byteHex c.toNat
  else String.mk [c]

/-- JSON string-body escaping (control characters, quote, backslash). -/
def jsonEscape (s : String) : String :=
  String.join (s.data.map jsonEscapeChar)

/-- Model of `json.Marshal` on the `interface\x7b\x7d` values produced by
`SerializableError`. -/
def jsonMarshal : Option String → String
  | none => "null"
  | some s => "\"" ++ jsonEscape s ++ "\""

/-! Concrete fixtures used by witnesses and counterexamples. -/

/-- Regular-mode options with default suffixes and no serializer. -/
def wOptRN : OptionSet := ⟨".json", ".result", false, none⟩

/-- Init-mode options with default suffixes and no serializer. -/
def wOptIN : OptionSet := ⟨".json", ".result", true, none⟩

/-- Identity callback without error. -/
def wCbId : TestFn := fun _ d => (d, none)

/-- Identity callback failing with `boom`. -/
def wCbErr : TestFn := fun _ d => (d, some "boom")

/-- One readable fixture, no reference. -/
def wFilesA : List (String × FileData) := [("d/a.json", FileData.readable [1, 2])]

/-- One readable fixture with a matching reference. -/
def wFiles7 : List (String × FileData) :=
  [("d/a.json", FileData.readable [7]), ("d/a.json.result", FileData.readable [7])]

/-- One readable fixture with an equal reference, bytes `[1]`. -/
def wFilesR1 : List (String × FileData) :=
  [("d/a.json", FileData.readable [1]), ("d/a.json.result", FileData.readable [1])]

/-- One readable fixture with a differing reference. -/
def wFilesNe : List (String × FileData) :=
  [("d/a.json", FileData.readable [65]), ("d/a.json.result", FileData.readable [66])]

/-- Fresh test state over a file map. -/
def wState (fs : List (String × FileData)) : TState := ⟨fs, [], none, []⟩

/-- Serializer failing on every input. -/
def wSerFail : SerFn := fun _ => Except.error "bad"

/-- Serializer succeeding on the reference bytes `[66]` only. -/
def wSerHalf : SerFn := fun d => if d = [66] then Except.ok "B" else Except.error "bad out"

/-- Regular-mode options with the UTF8 serializer. -/
def wOptRU : OptionSet := ⟨".json", ".result", false, some serializeUTF8Bytes⟩

/-- Regular-mode options with the always-failing serializer. -/
def wOptRF : OptionSet := ⟨".json", ".result", false, some wSerFail⟩

/-- Regular-mode options with the serializer failing on generated bytes. -/
def wOptRH : OptionSet := ⟨".json", ".result", false, some wSerHalf⟩

/-- A directory with one fixture whose reference holds different bytes. -/
def wWorldNe : World := ⟨true, none, [⟨"a.json", false⟩], wFilesNe⟩

/-- A directory with a non-matching file, one fixture (whose reference
matches), and a subdirectory. -/
def wWorld6 : World :=
  ⟨true, none, [⟨"b.txt", false⟩, ⟨"a.json", false⟩, ⟨"sub", true⟩], wFilesR1⟩

/-- A directory where fixture `a.t`'s reference path `a.t.result` is
itself a fixture (file suffix `t`). -/
def wWorld9 : World :=
  ⟨true, none, [⟨"a.t", false⟩, ⟨"a.t.result", false⟩],
    [("d/a.t", FileData.readable [1]), ("d/a.t.result", FileData.readable [2])]⟩

/-- A directory with no matching fixture (one `.txt` entry). -/
def wWorldTxt : World := ⟨true, none, [⟨"x.txt", false⟩], []⟩

/-- A missing directory. -/
def wWorldNoDir : World := ⟨false, none, [], []⟩

/-- A missing directory whose creation fails. -/
def wWorldNoDirErr : World := ⟨false, some "denied", [], []⟩

/-! Observations over traces. -/

/-- The fixture paths logged at the top of `processFile`, in processing
order: one per fixture that `Run` handed to `processFile`. -/
def logPaths (tr : List Ev) : List String :=
  tr.filterMap fun e =>
    match e with
    | Ev.logPath p => some p
    | _ => none

/-- The file writes performed during a run, in order. -/
def writeEvents (tr : List Ev) : List (String × List Nat) :=
  tr.filterMap fun e =>
    match e with
    | Ev.writeF p c => some (p, c)
    | _ => none

/-- The paths of the file writes performed during a run, in order. -/
def writePaths (tr : List Ev) : List String :=
  (writeEvents tr).map Prod.fst

/-- Recognizes the mismatch failure messages among the `t.Errorf` strings:
exactly those starting with the fixed sentence head `Reference `. -/
def isMismatchB (s : String) : Bool :=
  s.data.take 10 == ("Reference " : String).data

/-- Recognizes an access (stat or read) to the given reference path. -/
def refAccessEv (rp : String) : Ev → Bool := fun e =>
  match e with
  | Ev.statF q => q == rp
  | Ev.readF q => q == rp
  | _ => false

/-- Recognizes a callback invocation. -/
def callEv : Ev → Bool := fun e =>
  match e with
  | Ev.callT _ => true
  | _ => false

/-- Whether the first callback invocation in a trace happens strictly
before the first access to the given reference path (vacuously true when
either never happens). -/
def callbackBeforeRefAccess (tr : List Ev) (rp : String) : Bool :=
  match tr.findIdx? callEv, tr.findIdx? (refAccessEv rp) with
  | some i, some j => decide (i < j)
  | _, _ => true

/-! Basic lemmas about the file map. -/

theorem lookupFile_writeFile (fs : List (String × FileData)) (p q : String) (c : List Nat) :
    lookupFile (writeFile fs p c) q =
      if p = q then some (FileData.readable c) else lookupFile fs q := by
  induction fs with
  | nil =>
    by_cases h : p = q <;> simp [writeFile, lookupFile, h]
  | cons hd tl ih =>
    obtain ⟨r, d⟩ := hd
    by_cases hrp : r = p
    · subst hrp
      by_cases hq : r = q <;> simp [writeFile, lookupFile, hq]
    · by_cases hq : r = q
      · subst hq
        simp [writeFile, lookupFile, hrp, Ne.symm hrp]
      · simp [writeFile, lookupFile, hrp, hq, ih]

theorem readFile_writeFile_self (fs : List (String × FileData)) (p : String) (c : List Nat) :
    readFile (writeFile fs p c) p = Except.ok c := by
  simp [readFile, lookupFile_writeFile]

theorem readFile_writeFile_other (fs : List (String × FileData)) (p q : String) (c : List Nat)
    (h : p ≠ q) : readFile (writeFile fs p c) q = readFile fs q := by
  simp [readFile, lookupFile_writeFile, h]

/-- Appending a non-empty suffix changes a string. -/
theorem append_ne_self (p s : String) (hs : s ≠ "") : p ++ s ≠ p := by
  intro h
  apply hs
  have hd : (p ++ s).data = p.data := congrArg String.data h
  rw [String.data_append] at hd
  have hlen : p.data.length + s.data.length = p.data.length := by
    simpa using congrArg List.length hd
  have h0 : s.data.length = 0 := by omega
  have hnil : s.data = [] := List.length_eq_zero.mp h0
  cases s with
  | mk d =>
    have hd0 : d = [] := hnil
    subst hd0
    rfl

/-! The five characteristic equations of `processFile`, one per control
path of the source function. -/

/-- Regular mode, fixture readable, reference present and readable:
the full pipeline runs — log, read fixture, stat+read reference, invoke
callback (reporting its error, if any), compare, and report a mismatch
failure exactly when the bytes differ.  No file is written. -/
theorem processFile_regular_eq (opt : OptionSet) (test : TestFn) (st : TState)
    (path : String) (input ref : List Nat)
    (hmode : opt.initMode = false)
    (hin : readFile st.files path = Except.ok input)
    (href : lookupFile st.files (path ++ opt.resultSuffix) = some (FileData.readable ref)) :
    processFile opt test st path =
      { files := st.files
        failures := st.failures ++ cbFailures (test path input).2 ++
          (if (test path input).1 = ref then []
           else [mismatchMessage opt (path ++ opt.resultSuffix) ref (test path input).1])
        fatal := st.fatal
        trace := st.trace ++ [Ev.logPath path, Ev.readF path,
          Ev.statF (path ++ opt.resultSuffix), Ev.readF (path ++ opt.resultSuffix),
          Ev.callT path, Ev.cmp (path ++ opt.resultSuffix)] } := by
  have hstat : statFileExists st.files (path ++ opt.resultSuffix) = true := by
    simp [statFileExists, href]
  have hread : readFile st.files (path ++ opt.resultSuffix) = Except.ok ref := by
    simp [readFile, href]
  by_cases hc : (test path input).1 = ref
  · simp [processFile, hmode, hin, readReference, hstat, hread, reconcileRegular, hc,
      List.append_assoc]
  · simp [processFile, hmode, hin, readReference, hstat, hread, reconcileRegular, hc,
      List.append_assoc]

/-- Init mode, fixture readable: log, read, invoke callback (reporting
its error, if any), and write the output bytes to the reference path. -/
theorem processFile_init_eq (opt : OptionSet) (test : TestFn) (st : TState)
    (path : String) (input : List Nat)
    (hmode : opt.initMode = true)
    (hin : readFile st.files path = Except.ok input) :
    processFile opt test st path =
      { files := writeFile st.files (path ++ opt.resultSuffix) (test path input).1
        failures := st.failures ++ cbFailures (test path input).2
        fatal := st.fatal
        trace := st.trace ++ [Ev.logPath path, Ev.readF path, Ev.callT path,
          Ev.writeF (path ++ opt.resultSuffix) (test path input).1] } := by
  simp [processFile, hmode, hin, writeReference, List.append_assoc]

/-- Regular mode, fixture readable, reference file absent: fatal with the
remediation hint, and in particular the callback is never invoked. -/
theorem processFile_missing_ref_eq (opt : OptionSet) (test : TestFn) (st : TState)
    (path : String) (input : List Nat)
    (hmode : opt.initMode = false)
    (hin : readFile st.files path = Except.ok input)
    (href : lookupFile st.files (path ++ opt.resultSuffix) = none) :
    processFile opt test st path =
      { files := st.files
        failures := st.failures
        fatal := some ("File \x27" ++ (path ++ opt.resultSuffix) ++
          "\x27 doesn\x27t exist (try initializing snapshots with \x27go test -args init\x27)")
        trace := st.trace ++ [Ev.logPath path, Ev.readF path,
          Ev.statF (path ++ opt.resultSuffix)] } := by
  have hstat : statFileExists st.files (path ++ opt.resultSuffix) = false := by
    simp [statFileExists, href]
  simp [processFile, hmode, hin, readReference, hstat, List.append_assoc]

/-- Regular mode, fixture readable, reference present but unreadable:
fatal with the read-error message; the callback is never invoked. -/
theorem processFile_unreadable_ref_eq (opt : OptionSet) (test : TestFn) (st : TState)
    (path : String) (input : List Nat) (e : String)
    (hmode : opt.initMode = false)
    (hin : readFile st.files path = Except.ok input)
    (href : lookupFile st.files (path ++ opt.resultSuffix) = some (FileData.unreadable e)) :
    processFile opt test st path =
      { files := st.files
        failures := st.failures
        fatal := some ("Can\x27t read the \x27" ++ (path ++ opt.resultSuffix) ++ "\x27 file: " ++ e)
        trace := st.trace ++ [Ev.logPath path, Ev.readF path,
          Ev.statF (path ++ opt.resultSuffix), Ev.readF (path ++ opt.resultSuffix)] } := by
  have hstat : statFileExists st.files (path ++ opt.resultSuffix) = true := by
    simp [statFileExists, href]
  have hread : readFile st.files (path ++ opt.resultSuffix) = Except.error e := by
    simp [readFile, href]
  simp [processFile, hmode, hin, readReference, hstat, hread, List.append_assoc]

/-- Fixture unreadable (either mode): fatal before anything else. -/
theorem processFile_bad_input_eq (opt : OptionSet) (test : TestFn) (st : TState)
    (path : String) (e : String)
    (hin : readFile st.files path = Except.error e) :
    processFile opt test st path =
      { files := st.files
        failures := st.failures
        fatal := some ("Can\x27t read the file: " ++ e)
        trace := st.trace ++ [Ev.logPath path, Ev.readF path] } := by
  simp [processFile, hin]

/-! Lemmas about the name order and the sort. -/

theorem lexLe_total : ∀ as bs, lexLe as bs = true ∨ lexLe bs as = true := by
  intro as
  induction as with
  | nil => intro bs; left; rfl
  | cons a as ih =>
    intro bs
    cases bs with
    | nil => right; rfl
    | cons b bs =>
      by_cases h1 : a.toNat < b.toNat
      · left; simp [lexLe, h1]
      · by_cases h2 : b.toNat < a.toNat
        · right; simp [lexLe, h2]
        · rcases ih bs with h | h
          · left; simp [lexLe, h1, h2, h]
          · right; simp [lexLe, h1, h2, h]

theorem lexLe_trans : ∀ as bs cs, lexLe as bs = true → lexLe bs cs = true →
    lexLe as cs = true := by
  intro as
  induction as with
  | nil => intro bs cs _ _; rfl
  | cons a as ih =>
    intro bs cs h1 h2
    cases bs with
    | nil => simp [lexLe] at h1
    | cons b bs =>
      cases cs with
      | nil => simp [lexLe] at h2
      | cons c cs =>
        simp only [lexLe] at h1 h2 ⊢
        by_cases hab : a.toNat < b.toNat
        · by_cases hbc : b.toNat < c.toNat
          · have hac : a.toNat < c.toNat := Nat.lt_trans hab hbc
            simp [hac]
          · by_cases hcb : c.toNat < b.toNat
            · simp [hbc, hcb] at h2
            · have hac : a.toNat < c.toNat := by omega
              simp [hac]
        · by_cases hba : b.toNat < a.toNat
          · simp [hab, hba] at h1
          · by_cases hbc : b.toNat < c.toNat
            · have hac : a.toNat < c.toNat := by omega
              simp [hac]
            · by_cases hcb : c.toNat < b.toNat
              · simp [hbc, hcb] at h2
              · have hac : ¬ a.toNat < c.toNat := by omega
                have hca : ¬ c.toNat < a.toNat := by omega
                simp [hab, hba] at h1
                simp [hbc, hcb] at h2
                simp [hac, hca]
                exact ih bs cs h1 h2

theorem strLe_total (a b : String) : strLe a b = true ∨ strLe b a = true :=
  lexLe_total a.data b.data

theorem strLe_trans (a b c : String) (h1 : strLe a b = true) (h2 : strLe b c = true) :
    strLe a c = true :=
  lexLe_trans a.data b.data c.data h1 h2

theorem mem_insertEntry (x e : Entry) : ∀ l, x ∈ insertEntry e l ↔ x = e ∨ x ∈ l := by
  intro l
  induction l with
  | nil => simp [insertEntry]
  | cons y ys ih =>
    by_cases h : strLe e.name y.name = true
    · simp [insertEntry, h]
    · simp only [insertEntry, h, if_false, Bool.false_eq_true, List.mem_cons, ih]
      tauto

theorem mem_sortByName (x : Entry) : ∀ l, x ∈ sortByName l ↔ x ∈ l := by
  intro l
  induction l with
  | nil => simp [sortByName]
  | cons y ys ih =>
    simp [sortByName, mem_insertEntry, ih]

theorem pairwise_insertEntry (e : Entry) :
    ∀ l, l.Pairwise (fun a b : Entry => strLe a.name b.name = true) →
      (insertEntry e l).Pairwise (fun a b : Entry => strLe a.name b.name = true) := by
  intro l
  induction l with
  | nil => intro _; simp [insertEntry]
  | cons y ys ih =>
    intro hp
    rcases List.pairwise_cons.mp hp with ⟨hy, hys⟩
    by_cases h : strLe e.name y.name = true
    · simp only [insertEntry, h, if_true]
      refine List.pairwise_cons.mpr ⟨?_, hp⟩
      intro z hz
      rcases List.mem_cons.mp hz with hz1 | hz2
      · rw [hz1]; exact h
      · exact strLe_trans _ _ _ h (hy z hz2)
    · simp only [insertEntry, h, if_false, Bool.false_eq_true]
      refine List.pairwise_cons.mpr ⟨?_, ih hys⟩
      intro z hz
      rcases (mem_insertEntry z e ys).mp hz with hz1 | hz2
      · rw [hz1]
        rcases strLe_total e.name y.name with ht | ht
        · exact absurd ht h
        · exact ht
      · exact hy z hz2

theorem pairwise_sortByName (l : List Entry) :
    (sortByName l).Pairwise (fun a b : Entry => strLe a.name b.name = true) := by
  induction l with
  | nil => simp [sortByName]
  | cons y ys ih => exact pairwise_insertEntry y (sortByName ys) ih

theorem joinPath_inj (dir a b : String) (h : joinPath dir a = joinPath dir b) : a = b := by
  have hd := congrArg String.data h
  simp only [joinPath, String.data_append] at hd
  have hdat : a.data = b.data := by
    have h1 := List.append_cancel_left hd
    exact h1
  cases a with
  | mk da =>
    cases b with
    | mk db =>
      have : da = db := hdat
      rw [this]

/-! Trace observation lemmas. -/

theorem logPaths_append (a b : List Ev) : logPaths (a ++ b) = logPaths a ++ logPaths b := by
  simp [logPaths, List.filterMap_append]

theorem writeEvents_append (a b : List Ev) :
    writeEvents (a ++ b) = writeEvents a ++ writeEvents b := by
  simp [writeEvents, List.filterMap_append]

theorem writePaths_append (a b : List Ev) :
    writePaths (a ++ b) = writePaths a ++ writePaths b := by
  simp [writePaths, writeEvents_append]

/-- Every control path of `processFile` logs exactly its own fixture path. -/
theorem logPaths_processFile (opt : OptionSet) (test : TestFn) (st : TState) (path : String) :
    logPaths (processFile opt test st path).trace = logPaths st.trace ++ [path] := by
  cases hread : readFile st.files path with
  | error e =>
    rw [processFile_bad_input_eq opt test st path e hread]
    simp [logPaths_append, logPaths]
  | ok input =>
    cases hmode : opt.initMode with
    | true =>
      rw [processFile_init_eq opt test st path input hmode hread]
      simp [logPaths_append, logPaths]
    | false =>
      cases href : lookupFile st.files (path ++ opt.resultSuffix) with
      | none =>
        rw [processFile_missing_ref_eq opt test st path input hmode hread href]
        simp [logPaths_append, logPaths]
      | some fd =>
        cases fd with
        | readable ref =>
          rw [processFile_regular_eq opt test st path input ref hmode hread href]
          simp [logPaths_append, logPaths]
        | unreadable e =>
          rw [processFile_unreadable_ref_eq opt test st path input e hmode hread href]
          simp [logPaths_append, logPaths]

/-- In regular mode `processFile` neither writes a file nor changes the
file map, on every control path. -/
theorem processFile_regular_frame (opt : OptionSet) (test : TestFn) (st : TState) (path : String)
    (hmode : opt.initMode = false) :
    (processFile opt test st path).files = st.files ∧
      writeEvents (processFile opt test st path).trace = writeEvents st.trace := by
  cases hread : readFile st.files path with
  | error e =>
    rw [processFile_bad_input_eq opt test st path e hread]
    simp [writeEvents_append, writeEvents]
  | ok input =>
    cases href : lookupFile st.files (path ++ opt.resultSuffix) with
    | none =>
      rw [processFile_missing_ref_eq opt test st path input hmode hread href]
      simp [writeEvents_append, writeEvents]
    | some fd =>
      cases fd with
      | readable ref =>
        rw [processFile_regular_eq opt test st path input ref hmode hread href]
        simp [writeEvents_append, writeEvents]
      | unreadable e =>
        rw [processFile_unreadable_ref_eq opt test st path input e hmode hread href]
        simp [writeEvents_append, writeEvents]

/-! Lemmas about the fixture loop of `Run`. -/

theorem runLoop_no_match (opt : OptionSet) (test : TestFn) (dir : String) :
    ∀ (es : List Entry) (st : TState) (found : Bool),
      (∀ e ∈ es, matchesFixture opt e = false) →
      runLoop opt test dir es st found = (st, found) := by
  intro es
  induction es with
  | nil => intro st found _; rfl
  | cons e es ih =>
    intro st found hno
    have he : matchesFixture opt e = false := hno e (List.mem_cons_self e es)
    simp only [runLoop, he, Bool.false_eq_true, if_false]
    exact ih st found (fun x hx => hno x (List.mem_cons_of_mem e hx))

/-- The fixture paths logged by the loop form a processing-order take of
the matched entries in list order, the whole of it when no fatal occurred. -/
theorem runLoop_logPaths (opt : OptionSet) (test : TestFn) (dir : String) :
    ∀ (es : List Entry) (st : TState) (found : Bool),
      (∃ k, logPaths (runLoop opt test dir es st found).1.trace =
        logPaths st.trace ++
          (((es.filter (fun e => matchesFixture opt e)).map
            (fun e => joinPath dir e.name)).take k)) ∧
      ((runLoop opt test dir es st found).1.fatal = none →
        logPaths (runLoop opt test dir es st found).1.trace =
          logPaths st.trace ++
            ((es.filter (fun e => matchesFixture opt e)).map
              (fun e => joinPath dir e.name))) := by
  intro es
  induction es with
  | nil =>
    intro st found
    exact ⟨⟨0, by simp [runLoop]⟩, fun _ => by simp [runLoop]⟩
  | cons e es ih =>
    intro st found
    by_cases hm : matchesFixture opt e = true
    · have hlog := logPaths_processFile opt test st (joinPath dir e.name)
      by_cases hf : (processFile opt test st (joinPath dir e.name)).fatal.isSome = true
      · constructor
        · refine ⟨1, ?_⟩
          simp only [runLoop, hm, if_true, hf]
          simp [hlog, List.filter_cons, hm]
        · intro hnone
          simp only [runLoop, hm, if_true, hf] at hnone
          rw [Option.isSome_iff_exists] at hf
          rcases hf with ⟨v, hv⟩
          rw [hnone] at hv
          cases hv
      · have hstep : runLoop opt test dir (e :: es) st found =
            runLoop opt test dir es (processFile opt test st (joinPath dir e.name)) true := by
          simp only [runLoop, hm, if_true, hf, Bool.false_eq_true, if_false]
        rw [hstep]
        rcases ih (processFile opt test st (joinPath dir e.name)) true with ⟨⟨k, hk⟩, hfull⟩
        constructor
        · refine ⟨k + 1, ?_⟩
          rw [hk, hlog]
          simp [List.filter_cons, hm, List.append_assoc]
        · intro hnone
          rw [hfull hnone, hlog]
          simp [List.filter_cons, hm, List.append_assoc]
    · have hm2 : matchesFixture opt e = false := by
        cases h : matchesFixture opt e
        · rfl
        · exact absurd h hm
      have hstep : runLoop opt test dir (e :: es) st found =
          runLoop opt test dir es st found := by
        simp only [runLoop, hm2, Bool.false_eq_true, if_false]
      rw [hstep]
      rcases ih st found with ⟨⟨k, hk⟩, hfull⟩
      constructor
      · exact ⟨k, by rw [hk]; simp [List.filter_cons, hm2]⟩
      · intro hnone
        rw [hfull hnone]
        simp [List.filter_cons, hm2]

/-- In regular mode the loop neither writes a file nor changes the file
map, whatever happens. -/
theorem runLoop_regular_frame (opt : OptionSet) (test : TestFn) (dir : String)
    (hmode : opt.initMode = false) :
    ∀ (es : List Entry) (st : TState) (found : Bool),
      (runLoop opt test dir es st found).1.files = st.files ∧
        writeEvents (runLoop opt test dir es st found).1.trace = writeEvents st.trace := by
  intro es
  induction es with
  | nil => intro st found; exact ⟨rfl, rfl⟩
  | cons e es ih =>
    intro st found
    by_cases hm : matchesFixture opt e = true
    · rcases processFile_regular_frame opt test st (joinPath dir e.name) hmode with ⟨hfi, hwr⟩
      by_cases hf : (processFile opt test st (joinPath dir e.name)).fatal.isSome = true
      · simp only [runLoop, hm, if_true, hf]
        exact ⟨hfi, hwr⟩
      · simp only [runLoop, hm, if_true, hf, Bool.false_eq_true, if_false]
        rcases ih (processFile opt test st (joinPath dir e.name)) true with ⟨h1, h2⟩
        exact ⟨h1.trans hfi, h2.trans hwr⟩
    · have hm2 : matchesFixture opt e = false := by
        cases h : matchesFixture opt e
        · rfl
        · exact absurd h hm
      simp only [runLoop, hm2, Bool.false_eq_true, if_false]
      exact ih st found

/-- In init mode, over entries whose matched fixtures are all readable,
the loop never goes fatal, writes exactly one reference file per matched
fixture (in order), and leaves every path other than those written
references untouched. -/
theorem runLoop_init_frame (opt : OptionSet) (test : TestFn) (dir : String)
    (hmode : opt.initMode = true) :
    ∀ (es : List Entry) (st : TState) (found : Bool),
      st.fatal = none →
      (∀ e ∈ es, matchesFixture opt e = true →
        ∃ c, lookupFile st.files (joinPath dir e.name) = some (FileData.readable c)) →
      (runLoop opt test dir es st found).1.fatal = none ∧
      writePaths (runLoop opt test dir es st found).1.trace =
        writePaths st.trace ++
          ((es.filter (fun e => matchesFixture opt e)).map
            (fun e => joinPath dir e.name ++ opt.resultSuffix)) ∧
      (∀ q : String,
        (∀ e ∈ es, matchesFixture opt e = true →
          joinPath dir e.name ++ opt.resultSuffix ≠ q) →
        lookupFile (runLoop opt test dir es st found).1.files q = lookupFile st.files q) := by
  intro es
  induction es with
  | nil =>
    intro st found hfat _
    exact ⟨hfat, by simp [runLoop], fun q _ => rfl⟩
  | cons e es ih =>
    intro st found hfat hread
    by_cases hm : matchesFixture opt e = true
    · rcases hread e (List.mem_cons_self e es) hm with ⟨c, hc⟩
      have hrf : readFile st.files (joinPath dir e.name) = Except.ok c := by
        simp [readFile, hc]
      have heq := processFile_init_eq opt test st (joinPath dir e.name) c hmode hrf
      have hf : (processFile opt test st (joinPath dir e.name)).fatal.isSome = false := by
        rw [heq]
        simp [hfat]
      have hstep : runLoop opt test dir (e :: es) st found =
          runLoop opt test dir es (processFile opt test st (joinPath dir e.name)) true := by
        simp only [runLoop, hm, if_true, hf, Bool.false_eq_true, if_false]
      rw [hstep]
      have hread2 : ∀ e2 ∈ es, matchesFixture opt e2 = true →
          ∃ c2, lookupFile (processFile opt test st (joinPath dir e.name)).files
            (joinPath dir e2.name) = some (FileData.readable c2) := by
        intro e2 he2 hm2
        rw [heq]
        simp only [lookupFile_writeFile]
        by_cases hq : joinPath dir e.name ++ opt.resultSuffix = joinPath dir e2.name
        · exact ⟨(test (joinPath dir e.name) c).1, by simp [hq]⟩
        · rcases hread e2 (List.mem_cons_of_mem e he2) hm2 with ⟨c2, hc2⟩
          exact ⟨c2, by simp [hq, hc2]⟩
      have hfat2 : (processFile opt test st (joinPath dir e.name)).fatal = none := by
        rw [heq]; exact hfat
      rcases ih (processFile opt test st (joinPath dir e.name)) true hfat2 hread2
        with ⟨h1, h2, h3⟩
      refine ⟨h1, ?_, ?_⟩
      · rw [h2, heq]
        simp [writePaths_append, writePaths, writeEvents, List.filter_cons, hm,
          List.append_assoc]
      · intro q hq
        have hqe : joinPath dir e.name ++ opt.resultSuffix ≠ q :=
          hq e (List.mem_cons_self e es) hm
        rw [h3 q (fun e2 he2 hm2 => hq e2 (List.mem_cons_of_mem e he2) hm2), heq]
        simp [lookupFile_writeFile, hqe]
    · have hm2 : matchesFixture opt e = false := by
        cases h : matchesFixture opt e
        · rfl
        · exact absurd h hm
      have hstep : runLoop opt test dir (e :: es) st found =
          runLoop opt test dir es st found := by
        simp only [runLoop, hm2, Bool.false_eq_true, if_false]
      rw [hstep]
      rcases ih st found hfat
        (fun e2 he2 hm3 => hread e2 (List.mem_cons_of_mem e he2) hm3) with ⟨h1, h2, h3⟩
      refine ⟨h1, ?_, ?_⟩
      · rw [h2]
        simp [List.filter_cons, hm2]
      · intro q hq
        exact h3 q (fun e2 he2 hm3 => hq e2 (List.mem_cons_of_mem e he2) hm3)

/-! Classification of failure messages. -/

theorem isMismatchB_head_append (t : String) : isMismatchB ("Reference " ++ t) = true := by
  unfold isMismatchB
  rw [String.data_append]
  have hlen : ("Reference " : String).data.length = 10 := by decide
  rw [← hlen, List.take_left]
  simp

theorem isMismatchB_main_append (rp x : String) :
    isMismatchB (mainErrText rp ++ x) = true := by
  have h : mainErrText rp ++ x =
      "Reference " ++ ((rp ++ " contents don\x27t match the generated output.") ++ x) := by
    simp [mainErrText, String.append_assoc]
  rw [h]
  exact isMismatchB_head_append _

/-- Every mismatch failure message, whatever the serializer configuration
and its outcomes, carries the original mismatch signal (it starts with
the fixed `Reference ...` sentence). -/
theorem isMismatchB_mismatchMessage (opt : OptionSet) (rp : String) (a b : List Nat) :
    isMismatchB (mismatchMessage opt rp a b) = true := by
  cases hsf : opt.serializeFunc with
  | none =>
    simp only [mismatchMessage, hsf]
    exact isMismatchB_main_append rp _
  | some f =>
    cases hfa : f a with
    | error refErr =>
      simp only [mismatchMessage, hsf, hfa]
      have h := isMismatchB_main_append rp
        (" Also, serializing reference output data failed: " ++ refErr)
      simpa [String.append_assoc] using h
    | ok refStr =>
      cases hfb : f b with
      | error outErr =>
        simp only [mismatchMessage, hsf, hfa, hfb]
        have h := isMismatchB_main_append rp
          (" Also, serializing generated output data failed: " ++ outErr)
        simpa [String.append_assoc] using h
      | ok outStr =>
        simp only [mismatchMessage, hsf, hfa, hfb, getUnifiedDiffString]
        have h := isMismatchB_main_append rp
          (" Here\x27s the diff:\n\n" ++ (renderDiff
            { A := splitLines refStr
              B := splitLines outStr
              FromFile := rp ++ " (reference)"
              ToFile := rp ++ " (generated)"
              Context := 3
              Colored := true } ++ "\n"))
        simpa [String.append_assoc] using h

/-! Serializer independence, per fixture and over the loop. -/

theorem processFile_serializer_indep (opt1 opt2 : OptionSet) (test : TestFn)
    (st st' : TState) (path : String)
    (hrs : opt1.resultSuffix = opt2.resultSuffix)
    (hmode1 : opt1.initMode = false) (hmode2 : opt2.initMode = false)
    (hfiles : st.files = st'.files) (hfatal : st.fatal = st'.fatal)
    (htrace : st.trace = st'.trace)
    (hfail : st.failures.map isMismatchB = st'.failures.map isMismatchB) :
    (processFile opt1 test st path).files = (processFile opt2 test st' path).files ∧
    (processFile opt1 test st path).fatal = (processFile opt2 test st' path).fatal ∧
    (processFile opt1 test st path).trace = (processFile opt2 test st' path).trace ∧
    (processFile opt1 test st path).failures.map isMismatchB =
      (processFile opt2 test st' path).failures.map isMismatchB := by
  cases hread : readFile st.files path with
  | error e =>
    have hread' : readFile st'.files path = Except.error e := by
      rw [← hfiles]; exact hread
    rw [processFile_bad_input_eq opt1 test st path e hread,
      processFile_bad_input_eq opt2 test st' path e hread']
    exact ⟨hfiles, rfl, by rw [htrace], hfail⟩
  | ok input =>
    have hread' : readFile st'.files path = Except.ok input := by
      rw [← hfiles]; exact hread
    cases href : lookupFile st.files (path ++ opt1.resultSuffix) with
    | none =>
      have href' : lookupFile st'.files (path ++ opt2.resultSuffix) = none := by
        rw [← hfiles, ← hrs]; exact href
      rw [processFile_missing_ref_eq opt1 test st path input hmode1 hread href,
        processFile_missing_ref_eq opt2 test st' path input hmode2 hread' href']
      exact ⟨hfiles, by rw [hrs], by rw [htrace, hrs], hfail⟩
    | some fd =>
      cases fd with
      | readable ref =>
        have href' : lookupFile st'.files (path ++ opt2.resultSuffix) =
            some (FileData.readable ref) := by
          rw [← hfiles, ← hrs]; exact href
        rw [processFile_regular_eq opt1 test st path input ref hmode1 hread href,
          processFile_regular_eq opt2 test st' path input ref hmode2 hread' href']
        refine ⟨hfiles, hfatal, by rw [htrace, hrs], ?_⟩
        by_cases hc : (test path input).1 = ref
        · simp [hc, hfail]
        · simp [hc, hfail, isMismatchB_mismatchMessage]
      | unreadable e =>
        have href' : lookupFile st'.files (path ++ opt2.resultSuffix) =
            some (FileData.unreadable e) := by
          rw [← hfiles, ← hrs]; exact href
        rw [processFile_unreadable_ref_eq opt1 test st path input e hmode1 hread href,
          processFile_unreadable_ref_eq opt2 test st' path input e hmode2 hread' href']
        exact ⟨hfiles, by rw [hrs], by rw [htrace, hrs], hfail⟩

theorem runLoop_serializer_indep (opt1 opt2 : OptionSet) (test : TestFn) (dir : String)
    (hfs : opt1.fileSuffix = opt2.fileSuffix)
    (hrs : opt1.resultSuffix = opt2.resultSuffix)
    (hmode1 : opt1.initMode = false) (hmode2 : opt2.initMode = false) :
    ∀ (es : List Entry) (st st' : TState) (found : Bool),
      st.files = st'.files → st.fatal = st'.fatal → st.trace = st'.trace →
      st.failures.map isMismatchB = st'.failures.map isMismatchB →
      (runLoop opt1 test dir es st found).1.files = (runLoop opt2 test dir es st' found).1.files ∧
      (runLoop opt1 test dir es st found).1.fatal = (runLoop opt2 test dir es st' found).1.fatal ∧
      (runLoop opt1 test dir es st found).1.trace = (runLoop opt2 test dir es st' found).1.trace ∧
      (runLoop opt1 test dir es st found).1.failures.map isMismatchB =
        (runLoop opt2 test dir es st' found).1.failures.map isMismatchB ∧
      (runLoop opt1 test dir es st found).2 = (runLoop opt2 test dir es st' found).2 := by
  intro es
  induction es with
  | nil =>
    intro st st' found h1 h2 h3 h4
    exact ⟨h1, h2, h3, h4, rfl⟩
  | cons e es ih =>
    intro st st' found h1 h2 h3 h4
    have hmatch : matchesFixture opt1 e = matchesFixture opt2 e := by
      simp [matchesFixture, hfs]
    rcases processFile_serializer_indep opt1 opt2 test st st' (joinPath dir e.name)
      hrs hmode1 hmode2 h1 h2 h3 h4 with ⟨p1, p2, p3, p4⟩
    by_cases hm : matchesFixture opt1 e = true
    · have hm' : matchesFixture opt2 e = true := by rw [← hmatch]; exact hm
      by_cases hf : (processFile opt1 test st (joinPath dir e.name)).fatal.isSome = true
      · have hf' : (processFile opt2 test st' (joinPath dir e.name)).fatal.isSome = true := by
          rw [← p2]; exact hf
        simp only [runLoop, hm, hm', if_true, hf, hf']
        exact ⟨p1, p2, p3, p4, by trivial⟩
      · have hf' : (processFile opt2 test st' (joinPath dir e.name)).fatal.isSome = false := by
          rw [← p2]
          cases h : (processFile opt1 test st (joinPath dir e.name)).fatal.isSome
          · rfl
          · exact absurd h hf
        have hfb : (processFile opt1 test st (joinPath dir e.name)).fatal.isSome = false := by
          cases h : (processFile opt1 test st (joinPath dir e.name)).fatal.isSome
          · rfl
          · exact absurd h hf
        simp only [runLoop, hm, hm', if_true, hfb, hf', Bool.false_eq_true, if_false]
        exact ih _ _ true p1 p2 p3 p4
    · have hmb : matchesFixture opt1 e = false := by
        cases h : matchesFixture opt1 e
        · rfl
        · exact absurd h hm
      have hmb' : matchesFixture opt2 e = false := by rw [← hmatch]; exact hmb
      simp only [runLoop, hmb, hmb', Bool.false_eq_true, if_false]
      exact ih st st' found h1 h2 h3 h4

/-! The claims. -/

/-- C1: Round-trip.  Running `processFile` on a fixture in init mode and
then in regular mode over the resulting filesystem — fixture bytes,
callback and reference file unchanged in between — raises no fatal error
and reports no mismatch failure: the regular run's failures are exactly
the callback-error report (empty when the callback returns no error),
because the bytes written in init mode compare byte-for-byte equal to the
bytes recomputed in regular mode.  Assumptions: the fixture is readable
and the result suffix is non-empty (the documented configuration
invariant; with an empty suffix the reference path would be the fixture
path itself). -/
theorem init_then_regular_roundtrip (opt : OptionSet) (test : TestFn) (st : TState)
    (path : String) (input : List Nat)
    (hrs : opt.resultSuffix ≠ "")
    (hin : readFile st.files path = Except.ok input) :
    (processFile { opt with initMode := false } test
      ⟨(processFile { opt with initMode := true } test st path).files, [], none, []⟩
      path).fatal = none ∧
    (processFile { opt with initMode := false } test
      ⟨(processFile { opt with initMode := true } test st path).files, [], none, []⟩
      path).failures = cbFailures (test path input).2 := by
  have hinit := processFile_init_eq { opt with initMode := true } test st path input rfl hin
  have hrpne : path ++ opt.resultSuffix ≠ path := append_ne_self path opt.resultSuffix hrs
  have hfiles1 : (processFile { opt with initMode := true } test st path).files =
      writeFile st.files (path ++ opt.resultSuffix) (test path input).1 := by
    rw [hinit]
  have hin2 : readFile (processFile { opt with initMode := true } test st path).files path =
      Except.ok input := by
    rw [hfiles1, readFile_writeFile_other _ _ _ _ hrpne, hin]
  have href2 : lookupFile (processFile { opt with initMode := true } test st path).files
      (path ++ opt.resultSuffix) = some (FileData.readable (test path input).1) := by
    rw [hfiles1, lookupFile_writeFile]
    simp
  have hreg := processFile_regular_eq { opt with initMode := false } test
    ⟨(processFile { opt with initMode := true } test st path).files, [], none, []⟩
    path input (test path input).1 rfl hin2 href2
  rw [hreg]
  simp

/-- C1 witness: a concrete fixture and the identity callback; init then
regular yields no fatal and an empty failure list. -/
theorem init_then_regular_roundtrip_witness :
    ((".result" : String) ≠ "" ∧
      readFile wFilesA "d/a.json" = Except.ok [1, 2]) ∧
    (processFile { wOptIN with initMode := false } wCbId
      ⟨(processFile { wOptIN with initMode := true } wCbId (wState wFilesA)
        "d/a.json").files, [], none, []⟩ "d/a.json").fatal = none ∧
    (processFile { wOptIN with initMode := false } wCbId
      ⟨(processFile { wOptIN with initMode := true } wCbId (wState wFilesA)
        "d/a.json").files, [], none, []⟩ "d/a.json").failures =
      cbFailures (wCbId "d/a.json" [1, 2]).2 :=
  ⟨⟨by decide, rfl⟩,
    init_then_regular_roundtrip wOptIN wCbId (wState wFilesA) "d/a.json" [1, 2]
      (by decide) rfl⟩

/-- C2: Callback-error continuation.  When the callback returns a non-nil
error, `processFile` reports the error as a recoverable failure but does
not abort its pipeline: in init mode the returned bytes are still written
to the reference file, and in regular mode they are still compared
against the reference, the mismatch failure being appended independently
of the callback error (exactly when the bytes differ). -/
theorem callback_error_continues (opt : OptionSet) (test : TestFn) (st : TState)
    (path : String) (input out : List Nat) (e : String)
    (hin : readFile st.files path = Except.ok input)
    (htest : test path input = (out, some e)) :
    (opt.initMode = true →
      processFile opt test st path =
        ⟨writeFile st.files (path ++ opt.resultSuffix) out,
          st.failures ++ ["Error during test() call: " ++ e],
          st.fatal,
          st.trace ++ [Ev.logPath path, Ev.readF path, Ev.callT path,
            Ev.writeF (path ++ opt.resultSuffix) out]⟩) ∧
    (∀ ref, opt.initMode = false →
      lookupFile st.files (path ++ opt.resultSuffix) = some (FileData.readable ref) →
      processFile opt test st path =
        ⟨st.files,
          st.failures ++ ["Error during test() call: " ++ e] ++
            (if out = ref then []
             else [mismatchMessage opt (path ++ opt.resultSuffix) ref out]),
          st.fatal,
          st.trace ++ [Ev.logPath path, Ev.readF path,
            Ev.statF (path ++ opt.resultSuffix), Ev.readF (path ++ opt.resultSuffix),
            Ev.callT path, Ev.cmp (path ++ opt.resultSuffix)]⟩) := by
  constructor
  · intro hmode
    rw [processFile_init_eq opt test st path input hmode hin]
    simp [htest, cbFailures]
  · intro ref hmode href
    rw [processFile_regular_eq opt test st path input ref hmode hin href]
    simp [htest, cbFailures, List.append_assoc]

/-- C2 witness: the failing identity callback: in init mode the reference
file is still written while the callback error is reported; in regular
mode the comparison still runs (and matches), the callback error being
the only failure. -/
theorem callback_error_continues_witness :
    (readFile wFiles7 "d/a.json" = Except.ok [7] ∧
      wCbErr "d/a.json" [7] = ([7], some "boom") ∧
      wOptIN.initMode = true ∧ wOptRN.initMode = false ∧
      lookupFile wFiles7 ("d/a.json" ++ ".result") = some (FileData.readable [7])) ∧
    processFile wOptIN wCbErr (wState wFiles7) "d/a.json" =
      ⟨writeFile wFiles7 ("d/a.json" ++ ".result") [7],
        [] ++ ["Error during test() call: " ++ "boom"],
        none,
        [] ++ [Ev.logPath "d/a.json", Ev.readF "d/a.json", Ev.callT "d/a.json",
          Ev.writeF ("d/a.json" ++ ".result") [7]]⟩ ∧
    processFile wOptRN wCbErr (wState wFiles7) "d/a.json" =
      ⟨wFiles7,
        [] ++ ["Error during test() call: " ++ "boom"] ++
          (if [7] = ([7] : List Nat) then []
           else [mismatchMessage wOptRN ("d/a.json" ++ ".result") [7] [7]]),
        none,
        [] ++ [Ev.logPath "d/a.json", Ev.readF "d/a.json",
          Ev.statF ("d/a.json" ++ ".result"), Ev.readF ("d/a.json" ++ ".result"),
          Ev.callT "d/a.json", Ev.cmp ("d/a.json" ++ ".result")]⟩ :=
  ⟨⟨rfl, rfl, rfl, rfl, rfl⟩,
    (callback_error_continues wOptIN wCbErr (wState wFiles7) "d/a.json" [7] [7] "boom"
      rfl rfl).1 rfl,
    (callback_error_continues wOptRN wCbErr (wState wFiles7) "d/a.json" [7] [7] "boom"
      rfl rfl).2 [7] rfl rfl⟩

/-- C3 counterexample: the claim that the callback is invoked before the
reference file's existence is checked or its bytes read is false on the
code — on a concrete regular-mode run the first reference access (trace
index 2) precedes the first callback invocation (trace index 4). -/
theorem callback_after_reference_read_cex :
    callbackBeforeRefAccess
      (processFile wOptRN wCbId (wState wFilesR1) "d/a.json").trace
      "d/a.json.result" = false := by
  decide

/-- C3 (amended): per-fixture order in regular mode is load fixture, then
stat and read the reference file, then invoke the callback, then compare;
the reference existence check and read thus precede the callback
invocation, and when the reference file is absent the fixture goes fatal
(with the initialization hint) without the callback ever being invoked. -/
theorem regular_mode_reference_before_callback (opt : OptionSet) (test : TestFn)
    (st : TState) (path : String) (input : List Nat)
    (hmode : opt.initMode = false)
    (hin : readFile st.files path = Except.ok input) :
    (∀ ref, lookupFile st.files (path ++ opt.resultSuffix) = some (FileData.readable ref) →
      (processFile opt test st path).trace =
        st.trace ++ [Ev.logPath path, Ev.readF path, Ev.statF (path ++ opt.resultSuffix),
          Ev.readF (path ++ opt.resultSuffix), Ev.callT path,
          Ev.cmp (path ++ opt.resultSuffix)]) ∧
    (lookupFile st.files (path ++ opt.resultSuffix) = none →
      (processFile opt test st path).trace =
        st.trace ++ [Ev.logPath path, Ev.readF path, Ev.statF (path ++ opt.resultSuffix)] ∧
      (processFile opt test st path).fatal =
        some ("File \x27" ++ (path ++ opt.resultSuffix) ++
          "\x27 doesn\x27t exist (try initializing snapshots with \x27go test -args init\x27)")) := by
  constructor
  · intro ref href
    rw [processFile_regular_eq opt test st path input ref hmode hin href]
  · intro href
    rw [processFile_missing_ref_eq opt test st path input hmode hin href]
    exact ⟨rfl, rfl⟩

/-- C3 witness: the amended order on two concrete regular-mode runs, one
with the reference present (full pipeline, reference read before the
callback) and one with it absent (fatal before any callback). -/
theorem regular_mode_reference_before_callback_witness :
    (wOptRN.initMode = false ∧
      readFile wFilesR1 "d/a.json" = Except.ok [1] ∧
      lookupFile wFilesR1 ("d/a.json" ++ ".result") = some (FileData.readable [1]) ∧
      readFile wFilesA "d/a.json" = Except.ok [1, 2] ∧
      lookupFile wFilesA ("d/a.json" ++ ".result") = none) ∧
    (processFile wOptRN wCbId (wState wFilesR1) "d/a.json").trace =
      [] ++ [Ev.logPath "d/a.json", Ev.readF "d/a.json",
        Ev.statF ("d/a.json" ++ ".result"), Ev.readF ("d/a.json" ++ ".result"),
        Ev.callT "d/a.json", Ev.cmp ("d/a.json" ++ ".result")] ∧
    (processFile wOptRN wCbId (wState wFilesA) "d/a.json").trace =
      [] ++ [Ev.logPath "d/a.json", Ev.readF "d/a.json",
        Ev.statF ("d/a.json" ++ ".result")] ∧
    (processFile wOptRN wCbId (wState wFilesA) "d/a.json").fatal =
      some ("File \x27" ++ ("d/a.json" ++ ".result") ++
        "\x27 doesn\x27t exist (try initializing snapshots with \x27go test -args init\x27)") :=
  ⟨⟨rfl, rfl, rfl, rfl, rfl⟩,
    (regular_mode_reference_before_callback wOptRN wCbId (wState wFilesR1)
      "d/a.json" [1] rfl rfl).1 [1] rfl,
    ((regular_mode_reference_before_callback wOptRN wCbId (wState wFilesA)
      "d/a.json" [1, 2] rfl rfl).2 rfl).1,
    ((regular_mode_reference_before_callback wOptRN wCbId (wState wFilesA)
      "d/a.json" [1, 2] rfl rfl).2 rfl).2⟩

/-- C10: `SerializableError` returns `none` (the nil interface) for a nil
error and otherwise the error's message string; JSON-marshalling its
result yields the literal `null` for a nil error and the quoted, escaped
string for a non-nil one — in particular `"test"` for the error `test`,
as the unit test checks. -/
theorem serializableError_spec :
    SerializableError none = none ∧
    (∀ m : String, SerializableError (some m) = some m) ∧
    jsonMarshal (SerializableError none) = "null" ∧
    (∀ m : String, jsonMarshal (SerializableError (some m)) = "\"" ++ jsonEscape m ++ "\"") ∧
    jsonMarshal (SerializableError (some "test")) = "\"test\"" := by
  refine ⟨rfl, fun m => rfl, rfl, fun m => rfl, ?_⟩
  decide

/-- The post-loop bookkeeping of `runDir` never touches files or trace,
and a fatal-free result is the loop result itself. -/
theorem runDir_obs (opt : OptionSet) (test : TestFn) (dir : String)
    (files0 : List (String × FileData)) (entries : List Entry) (tr0 : List Ev) :
    (runDir opt test dir files0 entries tr0).files =
      (runLoop opt test dir (sortByName entries) ⟨files0, [], none, tr0⟩ false).1.files ∧
    (runDir opt test dir files0 entries tr0).trace =
      (runLoop opt test dir (sortByName entries) ⟨files0, [], none, tr0⟩ false).1.trace ∧
    ((runDir opt test dir files0 entries tr0).fatal = none →
      runDir opt test dir files0 entries tr0 =
        (runLoop opt test dir (sortByName entries) ⟨files0, [], none, tr0⟩ false).1) := by
  unfold runDir
  by_cases h1 : (runLoop opt test dir (sortByName entries)
      ⟨files0, [], none, tr0⟩ false).1.fatal.isSome = true
  · simp [h1]
  · by_cases h2 : (!(runLoop opt test dir (sortByName entries)
        ⟨files0, [], none, tr0⟩ false).2 && !opt.initMode) = true
    · simp [h1, h2]
    · simp [h1, h2]

/-- C5: Graceful diff degradation.  In regular mode every byte mismatch
is reported as a (recoverable) failure whose message always carries the
original mismatch signal; if a serializer is configured and both decodes
succeed, the detail is the unified diff with 3 lines of context labeled
with the reference path suffixed ` (reference)` and ` (generated)`; if no
serializer is configured, or either decode fails, a plain message is
reported that still starts with the mismatch signal and names the reason
no diff was rendered. -/
theorem mismatch_diff_degradation (opt : OptionSet) (test : TestFn) (st : TState)
    (path : String) (input ref : List Nat)
    (hmode : opt.initMode = false)
    (hin : readFile st.files path = Except.ok input)
    (href : lookupFile st.files (path ++ opt.resultSuffix) = some (FileData.readable ref))
    (hne : (test path input).1 ≠ ref) :
    (processFile opt test st path).failures =
      st.failures ++ cbFailures (test path input).2 ++
        [mismatchMessage opt (path ++ opt.resultSuffix) ref (test path input).1] ∧
    (processFile opt test st path).fatal = st.fatal ∧
    isMismatchB (mismatchMessage opt (path ++ opt.resultSuffix) ref (test path input).1) =
      true ∧
    (∀ f refStr outStr, opt.serializeFunc = some f →
      f ref = Except.ok refStr → f (test path input).1 = Except.ok outStr →
      mismatchMessage opt (path ++ opt.resultSuffix) ref (test path input).1 =
        mainErrText (path ++ opt.resultSuffix) ++ " Here\x27s the diff:\n\n" ++
          renderDiff ⟨splitLines refStr, splitLines outStr,
            (path ++ opt.resultSuffix) ++ " (reference)",
            (path ++ opt.resultSuffix) ++ " (generated)", 3, true⟩ ++ "\n") ∧
    (opt.serializeFunc = none →
      mismatchMessage opt (path ++ opt.resultSuffix) ref (test path input).1 =
        mainErrText (path ++ opt.resultSuffix) ++
          " Also, no data serialization function provided; can\x27t render a diff.") ∧
    (∀ f er, opt.serializeFunc = some f → f ref = Except.error er →
      mismatchMessage opt (path ++ opt.resultSuffix) ref (test path input).1 =
        mainErrText (path ++ opt.resultSuffix) ++
          " Also, serializing reference output data failed: " ++ er) ∧
    (∀ f refStr er, opt.serializeFunc = some f → f ref = Except.ok refStr →
      f (test path input).1 = Except.error er →
      mismatchMessage opt (path ++ opt.resultSuffix) ref (test path input).1 =
        mainErrText (path ++ opt.resultSuffix) ++
          " Also, serializing generated output data failed: " ++ er) := by
  refine ⟨?_, ?_, isMismatchB_mismatchMessage opt _ ref _, ?_, ?_, ?_, ?_⟩
  · rw [processFile_regular_eq opt test st path input ref hmode hin href]
    simp [hne]
  · rw [processFile_regular_eq opt test st path input ref hmode hin href]
  · intro f refStr outStr hsf hfr hfo
    simp only [mismatchMessage, hsf, hfr, hfo, getUnifiedDiffString]
  · intro hsf
    simp only [mismatchMessage, hsf]
  · intro f er hsf hfr
    simp only [mismatchMessage, hsf, hfr]
  · intro f refStr er hsf hfr hfo
    simp only [mismatchMessage, hsf, hfr, hfo]

/-- C5 witness: the same byte mismatch under four serializer
configurations — UTF8 serializer (diff rendered with context 3 and the
two labels), no serializer, a serializer failing on the reference bytes,
and one failing on the generated bytes — always reporting the failure. -/
theorem mismatch_diff_degradation_witness :
    (wOptRU.initMode = false ∧
      readFile wFilesNe "d/a.json" = Except.ok [65] ∧
      lookupFile wFilesNe ("d/a.json" ++ ".result") = some (FileData.readable [66]) ∧
      (wCbId "d/a.json" [65]).1 ≠ [66]) ∧
    (processFile wOptRU wCbId (wState wFilesNe) "d/a.json").failures =
      [] ++ cbFailures (wCbId "d/a.json" [65]).2 ++
        [mismatchMessage wOptRU ("d/a.json" ++ ".result") [66] (wCbId "d/a.json" [65]).1] ∧
    isMismatchB (mismatchMessage wOptRU ("d/a.json" ++ ".result") [66]
      (wCbId "d/a.json" [65]).1) = true ∧
    mismatchMessage wOptRU ("d/a.json" ++ ".result") [66] (wCbId "d/a.json" [65]).1 =
      mainErrText ("d/a.json" ++ ".result") ++ " Here\x27s the diff:\n\n" ++
        renderDiff ⟨splitLines (bytesToString [66]), splitLines (bytesToString [65]),
          ("d/a.json" ++ ".result") ++ " (reference)",
          ("d/a.json" ++ ".result") ++ " (generated)", 3, true⟩ ++ "\n" ∧
    mismatchMessage wOptRN ("d/a.json" ++ ".result") [66] (wCbId "d/a.json" [65]).1 =
      mainErrText ("d/a.json" ++ ".result") ++
        " Also, no data serialization function provided; can\x27t render a diff." ∧
    mismatchMessage wOptRF ("d/a.json" ++ ".result") [66] (wCbId "d/a.json" [65]).1 =
      mainErrText ("d/a.json" ++ ".result") ++
        " Also, serializing reference output data failed: " ++ "bad" ∧
    mismatchMessage wOptRH ("d/a.json" ++ ".result") [66] (wCbId "d/a.json" [65]).1 =
      mainErrText ("d/a.json" ++ ".result") ++
        " Also, serializing generated output data failed: " ++ "bad out" :=
  ⟨⟨rfl, rfl, rfl, by decide⟩,
    (mismatch_diff_degradation wOptRU wCbId (wState wFilesNe) "d/a.json" [65] [66]
      rfl rfl rfl (by decide)).1,
    (mismatch_diff_degradation wOptRU wCbId (wState wFilesNe) "d/a.json" [65] [66]
      rfl rfl rfl (by decide)).2.2.1,
    (mismatch_diff_degradation wOptRU wCbId (wState wFilesNe) "d/a.json" [65] [66]
      rfl rfl rfl (by decide)).2.2.2.1 serializeUTF8Bytes (bytesToString [66])
      (bytesToString [65]) rfl rfl rfl,
    (mismatch_diff_degradation wOptRN wCbId (wState wFilesNe) "d/a.json" [65] [66]
      rfl rfl rfl (by decide)).2.2.2.2.1 rfl,
    (mismatch_diff_degradation wOptRF wCbId (wState wFilesNe) "d/a.json" [65] [66]
      rfl rfl rfl (by decide)).2.2.2.2.2.1 wSerFail "bad" rfl rfl,
    (mismatch_diff_degradation wOptRH wCbId (wState wFilesNe) "d/a.json" [65] [66]
      rfl rfl rfl (by decide)).2.2.2.2.2.2 wSerHalf "B" "bad out" rfl rfl rfl⟩

/-- C4: Serializer noninterference.  Two runs in regular mode over the
same directory state and callback whose option sets agree on suffixes and
mode but may carry any two serializer configurations (including none)
produce the same fatal outcome, the same final filesystem, the same I/O
trace, and failure lists of the same length whose entries are mismatch
failures at the same positions: the serializer is consulted only to
render the failure detail after a mismatch is already detected. -/
theorem serializer_noninterference (opt1 opt2 : OptionSet) (dir : String) (test : TestFn)
    (w : World)
    (hfs : opt1.fileSuffix = opt2.fileSuffix)
    (hrs : opt1.resultSuffix = opt2.resultSuffix)
    (hmode1 : opt1.initMode = false) (hmode2 : opt2.initMode = false) :
    (runWithOptions opt1 dir test w).fatal = (runWithOptions opt2 dir test w).fatal ∧
    (runWithOptions opt1 dir test w).files = (runWithOptions opt2 dir test w).files ∧
    (runWithOptions opt1 dir test w).trace = (runWithOptions opt2 dir test w).trace ∧
    (runWithOptions opt1 dir test w).failures.map isMismatchB =
      (runWithOptions opt2 dir test w).failures.map isMismatchB ∧
    (runWithOptions opt1 dir test w).failures.length =
      (runWithOptions opt2 dir test w).failures.length := by
  cases hd : w.dirExists with
  | false =>
    simp [runWithOptions, hd, hmode1, hmode2]
  | true =>
    simp only [runWithOptions, hd, if_true]
    obtain ⟨hfi, hfa, htr, hmap, hfound⟩ :=
      runLoop_serializer_indep opt1 opt2 test dir hfs hrs hmode1 hmode2
        (sortByName w.entries) ⟨w.files, [], none, []⟩ ⟨w.files, [], none, []⟩ false
        rfl rfl rfl rfl
    have hlen : (runLoop opt1 test dir (sortByName w.entries)
        ⟨w.files, [], none, []⟩ false).1.failures.length =
        (runLoop opt2 test dir (sortByName w.entries)
          ⟨w.files, [], none, []⟩ false).1.failures.length := by
      simpa using congrArg List.length hmap
    unfold runDir
    by_cases h1 : (runLoop opt1 test dir (sortByName w.entries)
        ⟨w.files, [], none, []⟩ false).1.fatal.isSome = true
    · have h1' : (runLoop opt2 test dir (sortByName w.entries)
          ⟨w.files, [], none, []⟩ false).1.fatal.isSome = true := by
        rw [← hfa]; exact h1
      simp only [h1, h1', if_true]
      exact ⟨hfa, hfi, htr, hmap, hlen⟩
    · have h1b : (runLoop opt1 test dir (sortByName w.entries)
          ⟨w.files, [], none, []⟩ false).1.fatal.isSome = false := by
        cases hh : (runLoop opt1 test dir (sortByName w.entries)
            ⟨w.files, [], none, []⟩ false).1.fatal.isSome
        · rfl
        · exact absurd hh h1
      have h1b' : (runLoop opt2 test dir (sortByName w.entries)
          ⟨w.files, [], none, []⟩ false).1.fatal.isSome = false := by
        rw [← hfa]; exact h1b
      simp only [h1b, h1b', Bool.false_eq_true, if_false]
      by_cases h2 : (runLoop opt1 test dir (sortByName w.entries)
          ⟨w.files, [], none, []⟩ false).2 = false
      · have hcond1 : (!(runLoop opt1 test dir (sortByName w.entries)
            ⟨w.files, [], none, []⟩ false).2 && !opt1.initMode) = true := by
          simp [h2, hmode1]
        have hcond2 : (!(runLoop opt2 test dir (sortByName w.entries)
            ⟨w.files, [], none, []⟩ false).2 && !opt2.initMode) = true := by
          rw [← hfound]
          simp [h2, hmode2]
        simp only [hcond1, hcond2, if_true]
        refine ⟨?_, by simpa using hfi, by simpa using htr, by simpa using hmap,
          by simpa using hlen⟩
        simp only [hfs]
      · have h2b : (runLoop opt1 test dir (sortByName w.entries)
            ⟨w.files, [], none, []⟩ false).2 = true := by
          cases hh : (runLoop opt1 test dir (sortByName w.entries)
              ⟨w.files, [], none, []⟩ false).2
          · exact absurd hh h2
          · rfl
        have hcond1 : (!(runLoop opt1 test dir (sortByName w.entries)
            ⟨w.files, [], none, []⟩ false).2 && !opt1.initMode) = false := by
          simp [h2b]
        have hcond2 : (!(runLoop opt2 test dir (sortByName w.entries)
            ⟨w.files, [], none, []⟩ false).2 && !opt2.initMode) = false := by
          rw [← hfound]
          simp [h2b]
        simp only [hcond1, hcond2, Bool.false_eq_true, if_false]
        exact ⟨hfa, hfi, htr, hmap, hlen⟩

/-- C4 witness: a mismatching fixture run with the UTF8 serializer and
with no serializer — identical fatal outcome, files, trace, and a single
mismatch failure in both runs. -/
theorem serializer_noninterference_witness :
    (wOptRU.fileSuffix = wOptRN.fileSuffix ∧ wOptRU.resultSuffix = wOptRN.resultSuffix ∧
      wOptRU.initMode = false ∧ wOptRN.initMode = false) ∧
    (runWithOptions wOptRU "d" wCbId wWorldNe).fatal =
      (runWithOptions wOptRN "d" wCbId wWorldNe).fatal ∧
    (runWithOptions wOptRU "d" wCbId wWorldNe).files =
      (runWithOptions wOptRN "d" wCbId wWorldNe).files ∧
    (runWithOptions wOptRU "d" wCbId wWorldNe).trace =
      (runWithOptions wOptRN "d" wCbId wWorldNe).trace ∧
    (runWithOptions wOptRU "d" wCbId wWorldNe).failures.map isMismatchB =
      (runWithOptions wOptRN "d" wCbId wWorldNe).failures.map isMismatchB ∧
    (runWithOptions wOptRU "d" wCbId wWorldNe).failures.length =
      (runWithOptions wOptRN "d" wCbId wWorldNe).failures.length :=
  ⟨⟨rfl, rfl, rfl, rfl⟩,
    serializer_noninterference wOptRU wOptRN "d" wCbId wWorldNe rfl rfl rfl rfl⟩

/-- C6: Fixture discovery.  When the directory exists, the run hands to
`processFile` (in order) a take of the name-sorted direct entries that
are not subdirectories and whose name ends with the file suffix — the
whole of that list when no fatal occurred; the matched list is pairwise
sorted lexicographically by name, contains exactly the non-directory
suffix-matching direct entries, and an entry whose name does not end with
the suffix is never processed, regardless of its content. -/
theorem fixture_discovery (opt : OptionSet) (dir : String) (test : TestFn) (w : World)
    (hdir : w.dirExists = true) :
    (∃ k, logPaths (runWithOptions opt dir test w).trace =
      (((sortByName w.entries).filter (fun e => matchesFixture opt e)).map
        (fun e => joinPath dir e.name)).take k) ∧
    ((runWithOptions opt dir test w).fatal = none →
      logPaths (runWithOptions opt dir test w).trace =
        ((sortByName w.entries).filter (fun e => matchesFixture opt e)).map
          (fun e => joinPath dir e.name)) ∧
    ((sortByName w.entries).filter (fun e => matchesFixture opt e)).Pairwise
      (fun a b => strLe a.name b.name = true) ∧
    (∀ e : Entry, e ∈ (sortByName w.entries).filter (fun e => matchesFixture opt e) ↔
      e ∈ w.entries ∧ e.isDir = false ∧ hasSuffixStr e.name opt.fileSuffix = true) ∧
    (∀ e ∈ w.entries, hasSuffixStr e.name opt.fileSuffix = false →
      joinPath dir e.name ∉ logPaths (runWithOptions opt dir test w).trace) := by
  have hrun : runWithOptions opt dir test w = runDir opt test dir w.files w.entries [] := by
    simp [runWithOptions, hdir]
  have hobs := runDir_obs opt test dir w.files w.entries []
  have hloop := runLoop_logPaths opt test dir (sortByName w.entries)
    ⟨w.files, [], none, []⟩ false
  have hex : ∃ k, logPaths (runWithOptions opt dir test w).trace =
      (((sortByName w.entries).filter (fun e => matchesFixture opt e)).map
        (fun e => joinPath dir e.name)).take k := by
    rcases hloop.1 with ⟨k, hk⟩
    refine ⟨k, ?_⟩
    rw [hrun, hobs.2.1, hk]
    simp [logPaths]
  refine ⟨hex, ?_, ?_, ?_, ?_⟩
  · intro hfat
    rw [hrun] at hfat ⊢
    have hdone := hobs.2.2 hfat
    have hfat2 : (runLoop opt test dir (sortByName w.entries)
        ⟨w.files, [], none, []⟩ false).1.fatal = none := by
      rw [← hdone]; exact hfat
    rw [hobs.2.1, hloop.2 hfat2]
    simp [logPaths]
  · exact List.Pairwise.sublist (List.filter_sublist _) (pairwise_sortByName w.entries)
  · intro e
    rw [List.mem_filter, mem_sortByName]
    simp [matchesFixture]
  · intro e he hsuf hmem
    rcases hex with ⟨k, hk⟩
    rw [hk] at hmem
    have hmem2 := List.take_subset k _ hmem
    rcases List.mem_map.mp hmem2 with ⟨e2, he2, heq⟩
    have hname : e2.name = e.name := joinPath_inj dir e2.name e.name heq
    have hm2 : matchesFixture opt e2 = true := (List.mem_filter.mp he2).2
    have hsuf2 : hasSuffixStr e2.name opt.fileSuffix = true := by
      have h := hm2
      simp [matchesFixture] at h
      exact h.2
    rw [hname, hsuf] at hsuf2
    cases hsuf2

/-- C6 witness: a directory with a non-matching file, a fixture with a
matching reference, and a subdirectory: only the fixture is logged, in
the filtered sorted order; the non-matching name is never processed. -/
theorem fixture_discovery_witness :
    (wWorld6.dirExists = true ∧ (runWithOptions wOptRN "d" wCbId wWorld6).fatal = none ∧
      (⟨"b.txt", false⟩ : Entry) ∈ wWorld6.entries ∧
      hasSuffixStr "b.txt" wOptRN.fileSuffix = false) ∧
    logPaths (runWithOptions wOptRN "d" wCbId wWorld6).trace =
      ((sortByName wWorld6.entries).filter (fun e => matchesFixture wOptRN e)).map
        (fun e => joinPath "d" e.name) ∧
    ((sortByName wWorld6.entries).filter (fun e => matchesFixture wOptRN e)).Pairwise
      (fun a b => strLe a.name b.name = true) ∧
    ((⟨"b.txt", false⟩ : Entry) ∈
        (sortByName wWorld6.entries).filter (fun e => matchesFixture wOptRN e) ↔
      (⟨"b.txt", false⟩ : Entry) ∈ wWorld6.entries ∧ false = false ∧
        hasSuffixStr "b.txt" wOptRN.fileSuffix = true) ∧
    joinPath "d" "b.txt" ∉ logPaths (runWithOptions wOptRN "d" wCbId wWorld6).trace :=
  ⟨⟨rfl, by decide, by decide, by decide⟩,
    (fixture_discovery wOptRN "d" wCbId wWorld6 rfl).2.1 (by decide),
    (fixture_discovery wOptRN "d" wCbId wWorld6 rfl).2.2.1,
    (fixture_discovery wOptRN "d" wCbId wWorld6 rfl).2.2.2.1 ⟨"b.txt", false⟩,
    (fixture_discovery wOptRN "d" wCbId wWorld6 rfl).2.2.2.2 ⟨"b.txt", false⟩
      (by decide) (by decide)⟩

/-- C7: Empty-set policy.  Over an existing directory none of whose
entries matches the file suffix, a regular-mode run ends fatally with the
message naming the suffix and the directory, while an init-mode run ends
with no fatal and no failure; in both cases the outcome is a fixed record
depending only on the mode, not on any file's content. -/
theorem empty_set_policy (opt : OptionSet) (dir : String) (test : TestFn) (w : World)
    (hdir : w.dirExists = true)
    (hnone : ∀ e ∈ w.entries, matchesFixture opt e = false) :
    (opt.initMode = false →
      runWithOptions opt dir test w =
        ⟨w.files, [], some ("No files ending with \x27" ++ opt.fileSuffix ++
          "\x27 found in \x27" ++ dir ++ "\x27 directory"), []⟩) ∧
    (opt.initMode = true →
      runWithOptions opt dir test w = ⟨w.files, [], none, []⟩) := by
  have hnone2 : ∀ e ∈ sortByName w.entries, matchesFixture opt e = false := fun e he =>
    hnone e ((mem_sortByName e w.entries).mp he)
  have hloop := runLoop_no_match opt test dir (sortByName w.entries)
    ⟨w.files, [], none, []⟩ false hnone2
  constructor
  · intro hmode
    simp [runWithOptions, hdir, runDir, hloop, hmode]
  · intro hmode
    simp [runWithOptions, hdir, runDir, hloop, hmode]

/-- C7 witness: a directory holding only `x.txt`: fatal in regular mode
with the message naming `.json` and the directory, clean in init mode. -/
theorem empty_set_policy_witness :
    (wWorldTxt.dirExists = true ∧
      (∀ e ∈ wWorldTxt.entries, matchesFixture wOptRN e = false) ∧
      (∀ e ∈ wWorldTxt.entries, matchesFixture wOptIN e = false) ∧
      wOptRN.initMode = false ∧ wOptIN.initMode = true) ∧
    runWithOptions wOptRN "d" wCbId wWorldTxt =
      ⟨[], [], some ("No files ending with \x27" ++ ".json" ++
        "\x27 found in \x27" ++ "d" ++ "\x27 directory"), []⟩ ∧
    runWithOptions wOptIN "d" wCbId wWorldTxt = ⟨[], [], none, []⟩ :=
  ⟨⟨rfl, by decide, by decide, rfl, rfl⟩,
    (empty_set_policy wOptRN "d" wCbId wWorldTxt rfl (by decide)).1 rfl,
    (empty_set_policy wOptIN "d" wCbId wWorldTxt rfl (by decide)).2 rfl⟩

/-- C8: Missing-directory handling.  When the test directory does not
exist: in regular mode the run is immediately fatal with the message
instructing the caller to initialize snapshots first and no fixture is
processed (empty trace); in init mode the directory is created (the
`mkdir` step being the only trace event) and a creation failure is fatal
and aborts the whole run. -/
theorem missing_directory_handling (opt : OptionSet) (dir : String) (test : TestFn)
    (w : World) (hdir : w.dirExists = false) :
    (opt.initMode = false →
      runWithOptions opt dir test w =
        ⟨w.files, [], some ("Snapshot directory \x27" ++ dir ++
          "\x27 doesn\x27t exist (try initializing snapshots with \x27go test -args init\x27)"),
          []⟩) ∧
    (∀ e, opt.initMode = true → w.mkdirErr = some e →
      runWithOptions opt dir test w =
        ⟨w.files, [], some ("Can\x27t create the snapshot directory: " ++ e), []⟩) ∧
    (opt.initMode = true → w.mkdirErr = none →
      runWithOptions opt dir test w = ⟨w.files, [], none, [Ev.mkdirE dir]⟩) := by
  refine ⟨?_, ?_, ?_⟩
  · intro hmode
    simp [runWithOptions, hdir, hmode]
  · intro e hmode hmk
    simp [runWithOptions, hdir, hmode, hmk]
  · intro hmode hmk
    simp [runWithOptions, hdir, hmode, hmk, runDir, sortByName, runLoop]

/-- C8 witness: the three outcomes on concrete missing-directory worlds:
regular-mode fatal with the hint, init-mode creation failure fatal, and
init-mode successful creation with only the mkdir trace event. -/
theorem missing_directory_handling_witness :
    (wWorldNoDir.dirExists = false ∧ wWorldNoDirErr.dirExists = false ∧
      wOptRN.initMode = false ∧ wOptIN.initMode = true ∧
      wWorldNoDirErr.mkdirErr = some "denied" ∧ wWorldNoDir.mkdirErr = none) ∧
    runWithOptions wOptRN "d" wCbId wWorldNoDir =
      ⟨[], [], some ("Snapshot directory \x27" ++ "d" ++
        "\x27 doesn\x27t exist (try initializing snapshots with \x27go test -args init\x27)"),
        []⟩ ∧
    runWithOptions wOptIN "d" wCbId wWorldNoDirErr =
      ⟨[], [], some ("Can\x27t create the snapshot directory: " ++ "denied"), []⟩ ∧
    runWithOptions wOptIN "d" wCbId wWorldNoDir = ⟨[], [], none, [Ev.mkdirE "d"]⟩ :=
  ⟨⟨rfl, rfl, rfl, rfl, rfl, rfl⟩,
    (missing_directory_handling wOptRN "d" wCbId wWorldNoDir rfl).1 rfl,
    (missing_directory_handling wOptIN "d" wCbId wWorldNoDirErr rfl).2.1 "denied" rfl rfl,
    (missing_directory_handling wOptIN "d" wCbId wWorldNoDir rfl).2.2 rfl rfl⟩

/-- C9 counterexample: with file suffix `t` and result suffix `.result`
(both non-empty and distinct), fixture `a.t`'s reference path coincides
with the matched fixture `a.t.result`; an init-mode run overwrites that
fixture input file (bytes `[2]` become `[1]`), so the claim that fixture
input files are never modified fails on the code. -/
theorem init_mode_overwrites_colliding_fixture_cex :
    lookupFile wWorld9.files "d/a.t.result" = some (FileData.readable [2]) ∧
    lookupFile (run false [InitMode true, FileSuffix "t"] "d" wCbId wWorld9).files
      "d/a.t.result" = some (FileData.readable [1]) ∧
    matchesFixture (resolveOptions false [InitMode true, FileSuffix "t"])
      ⟨"a.t.result", false⟩ = true ∧
    (⟨"a.t.result", false⟩ : Entry) ∈ wWorld9.entries := by
  refine ⟨by decide, by decide, by decide, by decide⟩

/-- C9 (amended): Write frame.  A regular-mode run writes no file at all
and leaves the file map untouched, unconditionally.  An init-mode run
over an existing directory whose matched fixtures are readable writes
exactly the reference files `<fixture path><resultSuffix>`, one per
matched fixture in order, and leaves every other path — in particular
every fixture input whose path does not coincide with some matched
fixture's reference path, which cannot happen under the default suffixes
— unmodified. -/
theorem write_frame (opt : OptionSet) (dir : String) (test : TestFn) (w : World) :
    (opt.initMode = false →
      (runWithOptions opt dir test w).files = w.files ∧
      writeEvents (runWithOptions opt dir test w).trace = []) ∧
    (opt.initMode = true → w.dirExists = true →
      (∀ e ∈ w.entries, matchesFixture opt e = true →
        ∃ c, lookupFile w.files (joinPath dir e.name) = some (FileData.readable c)) →
      writePaths (runWithOptions opt dir test w).trace =
        ((sortByName w.entries).filter (fun e => matchesFixture opt e)).map
          (fun e => joinPath dir e.name ++ opt.resultSuffix) ∧
      (∀ q : String, (∀ e ∈ w.entries, matchesFixture opt e = true →
          joinPath dir e.name ++ opt.resultSuffix ≠ q) →
        lookupFile (runWithOptions opt dir test w).files q = lookupFile w.files q)) := by
  constructor
  · intro hmode
    cases hd : w.dirExists with
    | false =>
      simp [runWithOptions, hd, hmode, writeEvents]
    | true =>
      have hrun : runWithOptions opt dir test w =
          runDir opt test dir w.files w.entries [] := by
        simp [runWithOptions, hd]
      have hobs := runDir_obs opt test dir w.files w.entries []
      have hframe := runLoop_regular_frame opt test dir hmode (sortByName w.entries)
        ⟨w.files, [], none, []⟩ false
      rw [hrun]
      constructor
      · rw [hobs.1, hframe.1]
      · rw [hobs.2.1, hframe.2]
        rfl
  · intro hmode hd hreadable
    have hread2 : ∀ e ∈ sortByName w.entries, matchesFixture opt e = true →
        ∃ c, lookupFile w.files (joinPath dir e.name) = some (FileData.readable c) :=
      fun e he hm => hreadable e ((mem_sortByName e w.entries).mp he) hm
    have hinit := runLoop_init_frame opt test dir hmode (sortByName w.entries)
      ⟨w.files, [], none, []⟩ false rfl hread2
    have hrun : runWithOptions opt dir test w =
        runDir opt test dir w.files w.entries [] := by
      simp [runWithOptions, hd]
    have hobs := runDir_obs opt test dir w.files w.entries []
    rw [hrun]
    constructor
    · rw [hobs.2.1]
      have h2 := hinit.2.1
      simpa [writePaths, writeEvents] using h2
    · intro q hq
      have hq2 : ∀ e ∈ sortByName w.entries, matchesFixture opt e = true →
          joinPath dir e.name ++ opt.resultSuffix ≠ q :=
        fun e he hm => hq e ((mem_sortByName e w.entries).mp he) hm
      rw [hobs.1]
      exact hinit.2.2 q hq2

/-- C9 witness: a regular-mode run changes nothing and writes nothing; an
init-mode run over the same directory writes exactly the one reference
file of its one matched fixture and leaves the fixture input unchanged. -/
theorem write_frame_witness :
    (wOptRN.initMode = false ∧ wOptIN.initMode = true ∧ wWorldNe.dirExists = true) ∧
    ((runWithOptions wOptRN "d" wCbId wWorldNe).files = wWorldNe.files ∧
      writeEvents (runWithOptions wOptRN "d" wCbId wWorldNe).trace = []) ∧
    writePaths (runWithOptions wOptIN "d" wCbId wWorldNe).trace =
      ((sortByName wWorldNe.entries).filter (fun e => matchesFixture wOptIN e)).map
        (fun e => joinPath "d" e.name ++ wOptIN.resultSuffix) ∧
    lookupFile (runWithOptions wOptIN "d" wCbId wWorldNe).files "d/a.json" =
      lookupFile wWorldNe.files "d/a.json" :=
  ⟨⟨rfl, rfl, rfl⟩,
    (write_frame wOptRN "d" wCbId wWorldNe).1 rfl,
    ((write_frame wOptIN "d" wCbId wWorldNe).2 rfl rfl
      (by
        intro e he hm
        have he2 : e = ⟨"a.json", false⟩ := by
          simpa [wWorldNe] using he
        subst he2
        exact ⟨[65], rfl⟩)).1,
    ((write_frame wOptIN "d" wCbId wWorldNe).2 rfl rfl
      (by
        intro e he hm
        have he2 : e = ⟨"a.json", false⟩ := by
          simpa [wWorldNe] using he
        subst he2
        exact ⟨[65], rfl⟩)).2 "d/a.json" (by decide)⟩

end Agenda
